import Mathlib

/-!
Verification development for the rradio application (src/main.rs).

The Rust functions of the repository are shallowly embedded as Lean
definitions keeping their source names.  External collaborators (the
radiobrowser directory service, the filesystem, the json/serde
serializers, the vlc playback engine, the fltk widgets) are modelled at
the boundary the program observes: the directory service as the response
value it hands back, the cache file at parse granularity, the vlc calls
as an event trace, the widgets as the data the program pushes into them.
-/

/-- Model of JSON values as manipulated by the serde_json and json crates.
File bytes are modelled at parse granularity.  A number payload carries
the IEEE double verbatim; stations originate from JSON, so the non-finite
doubles that serde_json would flatten to null are unreachable. -/
inductive JVal where
  | null
  | bool (b : Bool)
  | int (n : Int)
  | num (x : Float)
  | str (s : String)
  | arr (xs : List JVal)
  | obj (fields : List (String × JVal))

/-- The station record of the radiobrowser crate (`ApiStation`), field set
exactly as enumerated by the json! macro at src/main.rs lines 154-195.
Machine integers are modelled as Int (i8, i32) and Nat (u8, u32), the
chrono timestamps by their RFC3339 serialized text, f64 by Float. -/
structure ApiStation where
  changeuuid : String
  stationuuid : String
  serveruuid : Option String
  name : String
  url : String
  url_resolved : String
  homepage : String
  favicon : String
  tags : String
  country : String
  countrycode : String
  iso_3166_2 : Option String
  state : String
  language : String
  languagecodes : Option String
  votes : Int
  lastchangetime_iso8601 : Option String
  codec : String
  bitrate : Nat
  hls : Int
  lastcheckok : Int
  lastchecktime_iso8601 : Option String
  lastcheckoktime_iso8601 : Option String
  lastlocalchecktime_iso8601 : Option String
  clicktimestamp_iso8601 : Option String
  clickcount : Nat
  clicktrend : Int
  ssl_error : Nat
  geo_lat : Option Float
  geo_long : Option Float
  has_extended_info : Option Bool

/-- serde_json encoding of a string field. -/
def jStr (s : String) : JVal := .str s

/-- serde_json encoding of an optional string field (None becomes null). -/
def jOptStr : Option String → JVal
  | none => .null
  | some s => .str s

/-- serde_json encoding of a signed integer field. -/
def jInt (n : Int) : JVal := .int n

/-- serde_json encoding of an unsigned integer field. -/
def jNat (n : Nat) : JVal := .int (Int.ofNat n)

/-- serde_json encoding of an optional f64 field. -/
def jOptFloat : Option Float → JVal
  | none => .null
  | some x => .num x

/-- serde_json encoding of an optional bool field. -/
def jOptBool : Option Bool → JVal
  | none => .null
  | some b => .bool b

/-- serde decoding of a string field. -/
def dStr : JVal → Option String
  | .str s => some s
  | _ => none

/-- serde decoding of an optional string field. -/
def dOptStr : JVal → Option (Option String)
  | .null => some none
  | .str s => some (some s)
  | _ => none

/-- serde decoding of a signed integer field. -/
def dInt : JVal → Option Int
  | .int n => some n
  | _ => none

/-- serde decoding of an unsigned integer field; negative numbers are
rejected as they are by serde for u8/u32 targets. -/
def dNat : JVal → Option Nat
  | .int (.ofNat n) => some n
  | _ => none

/-- serde decoding of an optional f64 field. -/
def dOptFloat : JVal → Option (Option Float)
  | .null => some none
  | .num x => some (some x)
  | _ => none

/-- serde decoding of an optional bool field. -/
def dOptBool : JVal → Option (Option Bool)
  | .null => some none
  | .bool b => some (some b)
  | _ => none

/-- The key/value list built by the json! macro in station_to_json
(src/main.rs lines 155-191), in source order and including the four
duplicated timestamp entries of lines 181-184.  The derived serde
serialization of ApiStation used at line 97 produces the same map. -/
def station_json_fields (station : ApiStation) : List (String × JVal) :=
  [("changeuuid", jStr station.changeuuid),
   ("stationuuid", jStr station.stationuuid),
   ("serveruuid", jOptStr station.serveruuid),
   ("name", jStr station.name),
   ("url", jStr station.url),
   ("url_resolved", jStr station.url_resolved),
   ("homepage", jStr station.homepage),
   ("favicon", jStr station.favicon),
   ("tags", jStr station.tags),
   ("country", jStr station.country),
   ("countrycode", jStr station.countrycode),
   ("iso_3166_2", jOptStr station.iso_3166_2),
   ("state", jStr station.state),
   ("language", jStr station.language),
   ("languagecodes", jOptStr station.languagecodes),
   ("votes", jInt station.votes),
   ("lastchangetime_iso8601", jOptStr station.lastchangetime_iso8601),
   ("codec", jStr station.codec),
   ("bitrate", jNat station.bitrate),
   ("hls", jInt station.hls),
   ("lastcheckok", jInt station.lastcheckok),
   ("lastchecktime_iso8601", jOptStr station.lastchecktime_iso8601),
   ("lastcheckoktime_iso8601", jOptStr station.lastcheckoktime_iso8601),
   ("lastlocalchecktime_iso8601", jOptStr station.lastlocalchecktime_iso8601),
   ("clicktimestamp_iso8601", jOptStr station.clicktimestamp_iso8601),
   ("lastchecktime_iso8601", jOptStr station.lastchecktime_iso8601),
   ("lastcheckoktime_iso8601", jOptStr station.lastcheckoktime_iso8601),
   ("lastlocalchecktime_iso8601", jOptStr station.lastlocalchecktime_iso8601),
   ("clicktimestamp_iso8601", jOptStr station.clicktimestamp_iso8601),
   ("clickcount", jNat station.clickcount),
   ("clicktrend", jInt station.clicktrend),
   ("ssl_error", jNat station.ssl_error),
   ("geo_lat", jOptFloat station.geo_lat),
   ("geo_long", jOptFloat station.geo_long),
   ("has_extended_info", jOptBool station.has_extended_info)]

/-- The serde_json value of one station: the json! object of
src/main.rs lines 155-191, also the derived Serialize output. -/
def serialize_station (station : ApiStation) : JVal :=
  .obj (station_json_fields station)

/- The derived Deserialize of ApiStation reads every field by name from
the JSON object, failing if one is missing or of the wrong shape.  The
field reads are grouped four at a time (readA .. readH below) purely to
keep the generated code small; their concatenation is the straight
per-field read sequence of serde. -/

/-- Fields changeuuid, stationuuid, serveruuid, name. -/
def readA (fs : List (String × JVal)) :
    Option (String × String × Option String × String) :=
  Option.bind ((List.lookup "changeuuid" fs).bind dStr) fun changeuuid =>
  Option.bind ((List.lookup "stationuuid" fs).bind dStr) fun stationuuid =>
  Option.bind ((List.lookup "serveruuid" fs).bind dOptStr) fun serveruuid =>
  Option.bind ((List.lookup "name" fs).bind dStr) fun name =>
  some (changeuuid, stationuuid, serveruuid, name)

/-- Fields url, url_resolved, homepage, favicon. -/
def readB (fs : List (String × JVal)) :
    Option (String × String × String × String) :=
  Option.bind ((List.lookup "url" fs).bind dStr) fun url =>
  Option.bind ((List.lookup "url_resolved" fs).bind dStr) fun url_resolved =>
  Option.bind ((List.lookup "homepage" fs).bind dStr) fun homepage =>
  Option.bind ((List.lookup "favicon" fs).bind dStr) fun favicon =>
  some (url, url_resolved, homepage, favicon)

/-- Fields tags, country, countrycode, iso_3166_2. -/
def readC (fs : List (String × JVal)) :
    Option (String × String × String × Option String) :=
  Option.bind ((List.lookup "tags" fs).bind dStr) fun tags =>
  Option.bind ((List.lookup "country" fs).bind dStr) fun country =>
  Option.bind ((List.lookup "countrycode" fs).bind dStr) fun countrycode =>
  Option.bind ((List.lookup "iso_3166_2" fs).bind dOptStr) fun iso_3166_2 =>
  some (tags, country, countrycode, iso_3166_2)

/-- Fields state, language, languagecodes, votes. -/
def readD (fs : List (String × JVal)) :
    Option (String × String × Option String × Int) :=
  Option.bind ((List.lookup "state" fs).bind dStr) fun state =>
  Option.bind ((List.lookup "language" fs).bind dStr) fun language =>
  Option.bind ((List.lookup "languagecodes" fs).bind dOptStr) fun languagecodes =>
  Option.bind ((List.lookup "votes" fs).bind dInt) fun votes =>
  some (state, language, languagecodes, votes)

/-- Fields lastchangetime_iso8601, codec, bitrate, hls. -/
def readE (fs : List (String × JVal)) :
    Option (Option String × String × Nat × Int) :=
  Option.bind ((List.lookup "lastchangetime_iso8601" fs).bind dOptStr) fun lastchangetime =>
  Option.bind ((List.lookup "codec" fs).bind dStr) fun codec =>
  Option.bind ((List.lookup "bitrate" fs).bind dNat) fun bitrate =>
  Option.bind ((List.lookup "hls" fs).bind dInt) fun hls =>
  some (lastchangetime, codec, bitrate, hls)

/-- Fields lastcheckok and the three remaining check timestamps. -/
def readF (fs : List (String × JVal)) :
    Option (Int × Option String × Option String × Option String) :=
  Option.bind ((List.lookup "lastcheckok" fs).bind dInt) fun lastcheckok =>
  Option.bind ((List.lookup "lastchecktime_iso8601" fs).bind dOptStr) fun lastchecktime =>
  Option.bind ((List.lookup "lastcheckoktime_iso8601" fs).bind dOptStr) fun lastcheckoktime =>
  Option.bind ((List.lookup "lastlocalchecktime_iso8601" fs).bind dOptStr) fun lastlocalchecktime =>
  some (lastcheckok, lastchecktime, lastcheckoktime, lastlocalchecktime)

/-- Fields clicktimestamp_iso8601, clickcount, clicktrend, ssl_error. -/
def readG (fs : List (String × JVal)) :
    Option (Option String × Nat × Int × Nat) :=
  Option.bind ((List.lookup "clicktimestamp_iso8601" fs).bind dOptStr) fun clicktimestamp =>
  Option.bind ((List.lookup "clickcount" fs).bind dNat) fun clickcount =>
  Option.bind ((List.lookup "clicktrend" fs).bind dInt) fun clicktrend =>
  Option.bind ((List.lookup "ssl_error" fs).bind dNat) fun ssl_error =>
  some (clicktimestamp, clickcount, clicktrend, ssl_error)

/-- Fields geo_lat, geo_long, has_extended_info. -/
def readH (fs : List (String × JVal)) :
    Option (Option Float × Option Float × Option Bool) :=
  Option.bind ((List.lookup "geo_lat" fs).bind dOptFloat) fun geo_lat =>
  Option.bind ((List.lookup "geo_long" fs).bind dOptFloat) fun geo_long =>
  Option.bind ((List.lookup "has_extended_info" fs).bind dOptBool) fun has_extended_info =>
  some (geo_lat, geo_long, has_extended_info)

/-- Model of serde_json::from_value::<ApiStation>: read every field of the
struct by name from the JSON object, failing if any field is missing or
has the wrong shape (derived Deserialize semantics). -/
def from_value (v : JVal) : Option ApiStation :=
  match v with
  | .obj fs =>
    Option.bind (readA fs) fun (changeuuid, stationuuid, serveruuid, name) =>
    Option.bind (readB fs) fun (url, url_resolved, homepage, favicon) =>
    Option.bind (readC fs) fun (tags, country, countrycode, iso_3166_2) =>
    Option.bind (readD fs) fun (state, language, languagecodes, votes) =>
    Option.bind (readE fs) fun (lastchangetime_iso8601, codec, bitrate, hls) =>
    Option.bind (readF fs) fun (lastcheckok, lastchecktime_iso8601,
                                lastcheckoktime_iso8601, lastlocalchecktime_iso8601) =>
    Option.bind (readG fs) fun (clicktimestamp_iso8601, clickcount, clicktrend, ssl_error) =>
    Option.bind (readH fs) fun (geo_lat, geo_long, has_extended_info) =>
    some { changeuuid := changeuuid, stationuuid := stationuuid,
           serveruuid := serveruuid, name := name, url := url,
           url_resolved := url_resolved, homepage := homepage,
           favicon := favicon, tags := tags, country := country,
           countrycode := countrycode, iso_3166_2 := iso_3166_2,
           state := state, language := language,
           languagecodes := languagecodes, votes := votes,
           lastchangetime_iso8601 := lastchangetime_iso8601, codec := codec,
           bitrate := bitrate, hls := hls, lastcheckok := lastcheckok,
           lastchecktime_iso8601 := lastchecktime_iso8601,
           lastcheckoktime_iso8601 := lastcheckoktime_iso8601,
           lastlocalchecktime_iso8601 := lastlocalchecktime_iso8601,
           clicktimestamp_iso8601 := clicktimestamp_iso8601,
           clickcount := clickcount, clicktrend := clicktrend,
           ssl_error := ssl_error, geo_lat := geo_lat, geo_long := geo_long,
           has_extended_info := has_extended_info }
  | _ => none

/-- station_to_json (src/main.rs lines 154-195): build the json! value of
all fields, then deserialize it back into an ApiStation; Err is none. -/
def station_to_json (station : ApiStation) : Option ApiStation :=
  from_value (serialize_station station)

theorem optionBind_some (a : α) (f : α → Option β) :
    Option.bind (some a) f = f a := rfl

theorem readA_fields (s : ApiStation) :
    readA (station_json_fields s) =
      some (s.changeuuid, s.stationuuid, s.serveruuid, s.name) := by
  obtain ⟨c, su, sv, n, u, ur, hp, fv, tg, co, cc, iso, st, lg, lc, vt, lct, cd,
    br, hl, lok, lt1, lt2, lt3, lt4, ck, ct, ssl, gla, glo, hei⟩ := s
  cases sv <;> rfl

theorem readB_fields (s : ApiStation) :
    readB (station_json_fields s) =
      some (s.url, s.url_resolved, s.homepage, s.favicon) := by
  obtain ⟨c, su, sv, n, u, ur, hp, fv, tg, co, cc, iso, st, lg, lc, vt, lct, cd,
    br, hl, lok, lt1, lt2, lt3, lt4, ck, ct, ssl, gla, glo, hei⟩ := s
  rfl

theorem readC_fields (s : ApiStation) :
    readC (station_json_fields s) =
      some (s.tags, s.country, s.countrycode, s.iso_3166_2) := by
  obtain ⟨c, su, sv, n, u, ur, hp, fv, tg, co, cc, iso, st, lg, lc, vt, lct, cd,
    br, hl, lok, lt1, lt2, lt3, lt4, ck, ct, ssl, gla, glo, hei⟩ := s
  cases iso <;> rfl

theorem readD_fields (s : ApiStation) :
    readD (station_json_fields s) =
      some (s.state, s.language, s.languagecodes, s.votes) := by
  obtain ⟨c, su, sv, n, u, ur, hp, fv, tg, co, cc, iso, st, lg, lc, vt, lct, cd,
    br, hl, lok, lt1, lt2, lt3, lt4, ck, ct, ssl, gla, glo, hei⟩ := s
  cases lc <;> rfl

theorem readE_fields (s : ApiStation) :
    readE (station_json_fields s) =
      some (s.lastchangetime_iso8601, s.codec, s.bitrate, s.hls) := by
  obtain ⟨c, su, sv, n, u, ur, hp, fv, tg, co, cc, iso, st, lg, lc, vt, lct, cd,
    br, hl, lok, lt1, lt2, lt3, lt4, ck, ct, ssl, gla, glo, hei⟩ := s
  cases lct <;> rfl

theorem readF_fields (s : ApiStation) :
    readF (station_json_fields s) =
      some (s.lastcheckok, s.lastchecktime_iso8601, s.lastcheckoktime_iso8601,
            s.lastlocalchecktime_iso8601) := by
  obtain ⟨c, su, sv, n, u, ur, hp, fv, tg, co, cc, iso, st, lg, lc, vt, lct, cd,
    br, hl, lok, lt1, lt2, lt3, lt4, ck, ct, ssl, gla, glo, hei⟩ := s
  cases lt1 <;> cases lt2 <;> cases lt3 <;> rfl

theorem readG_fields (s : ApiStation) :
    readG (station_json_fields s) =
      some (s.clicktimestamp_iso8601, s.clickcount, s.clicktrend, s.ssl_error) := by
  obtain ⟨c, su, sv, n, u, ur, hp, fv, tg, co, cc, iso, st, lg, lc, vt, lct, cd,
    br, hl, lok, lt1, lt2, lt3, lt4, ck, ct, ssl, gla, glo, hei⟩ := s
  cases lt4 <;> rfl

theorem readH_fields (s : ApiStation) :
    readH (station_json_fields s) =
      some (s.geo_lat, s.geo_long, s.has_extended_info) := by
  obtain ⟨c, su, sv, n, u, ur, hp, fv, tg, co, cc, iso, st, lg, lc, vt, lct, cd,
    br, hl, lok, lt1, lt2, lt3, lt4, ck, ct, ssl, gla, glo, hei⟩ := s
  cases gla <;> cases glo <;> cases hei <;> rfl

/-- Serializing one station with the json! macro and deserializing the
value back with serde yields the station unchanged. -/
theorem station_to_json_id (s : ApiStation) : station_to_json s = some s := by
  simp only [station_to_json, serialize_station, from_value,
    readA_fields, readB_fields, readC_fields, readD_fields,
    readE_fields, readF_fields, readG_fields, readH_fields,
    optionBind_some]

/-! ## The catalog cache (stations.json) -/

/-- The state of the cache file at the well-known location "stations.json",
modelled at the granularity the program observes: the record can be
absent, present but hit by an I/O fault distinct from absence when opened,
or present with readable bytes summarized by their parse result
(none = bytes that the json crate cannot parse). -/
inductive CacheFile where
  | absent
  | faulted
  | content (parsed : Option JVal)

/-- Outcome of File::open on the cache path. -/
inductive OpenOutcome where
  | ok (parsed : Option JVal)
  | errNotFound
  | errOther

/-- File::open("stations.json") against a cache state. -/
def openFile : CacheFile → OpenOutcome
  | .absent => .errNotFound
  | .faulted => .errOther
  | .content p => .ok p

/-- is_cache_present (src/main.rs lines 221-227): match File::open,
any Err gives false, Ok gives true. -/
def is_cache_present (f : CacheFile) : Bool :=
  match openFile f with
  | .errNotFound => false
  | .errOther => false
  | .ok _ => true

/-- Spec-side notion for C7: a cache record is present at the well-known
location (regardless of whether it can be opened or parsed). -/
def recordPresent : CacheFile → Bool
  | .absent => false
  | _ => true

/-- write_data_to_file (src/main.rs lines 229-240): File::create plus
write_all, overwriting any previous record; the payload is the serialized
data, modelled by its JSON value. -/
def write_data_to_file (data : JVal) : CacheFile :=
  .content (some data)

/-- Result of read_data_from_file_and_parse: the function panics (process
abort) on open and read failures, and otherwise returns json::parse's
Result. -/
inductive ReadResult where
  | panicked (msg : String)
  | jsonErr
  | ok (v : JVal)

/-- read_data_from_file_and_parse (src/main.rs lines 242-257): panic when
File::open fails, panic when read_to_string fails, otherwise return the
json::parse Result of the contents. -/
def read_data_from_file_and_parse (f : CacheFile) : ReadResult :=
  match openFile f with
  | .errNotFound => .panicked "could not open stations.json"
  | .errOther => .panicked "could not open stations.json"
  | .ok none => .jsonErr
  | .ok (some v) => .ok v

/-- mapM over Option, modelling per-element serde processing of a Vec. -/
def mapOptM (f : α → Option β) : List α → Option (List β)
  | [] => some []
  | x :: xs =>
    Option.bind (f x) fun y =>
    Option.bind (mapOptM f xs) fun ys =>
    some (y :: ys)

/-- serde deserialization of Vec<ApiStation>: the value must be an array
and every element must deserialize. -/
def decode_station_list : JVal → Option (List ApiStation)
  | .arr xs => mapOptM from_value xs
  | _ => none

/-- The save path of src/main.rs lines 92-97 followed by the load path of
read_data_from_file_and_parse plus the Vec<ApiStation> decoding of the
parsed value: map station_to_json over the catalog (the .unwrap() of line
95 is the monadic bind), serialize the resulting vector (line 97,
derived Serialize), write it to stations.json, read the file back, parse
it, and decode the stations. -/
def save_then_load (l : List ApiStation) : Option (List ApiStation) :=
  Option.bind (mapOptM station_to_json l) fun json_vec =>
  match read_data_from_file_and_parse
      (write_data_to_file (.arr (json_vec.map serialize_station))) with
  | .ok v => decode_station_list v
  | _ => none

theorem mapOptM_id (f : α → Option α) (h : ∀ x, f x = some x) :
    ∀ l : List α, mapOptM f l = some l := by
  intro l
  induction l with
  | nil => rfl
  | cons x xs ih => simp [mapOptM, h x, ih, optionBind_some]

theorem mapOptM_from_value_map (l : List ApiStation) :
    mapOptM from_value (l.map serialize_station) = some l := by
  induction l with
  | nil => rfl
  | cons x xs ih =>
    have hx : from_value (serialize_station x) = some x := station_to_json_id x
    simp [mapOptM, hx, ih, optionBind_some]

/-- C2: saving the catalog to the cache and loading it back is a lossless
round trip for every station list, the empty list included, and the
per-station serialization step station_to_json returns its input
unchanged for every station. -/
theorem save_load_lossless :
    (∀ s : ApiStation, station_to_json s = some s) ∧
    (∀ l : List ApiStation, save_then_load l = some l) := by
  refine ⟨station_to_json_id, fun l => ?_⟩
  simp only [save_then_load, mapOptM_id station_to_json station_to_json_id l,
    optionBind_some, write_data_to_file, read_data_from_file_and_parse,
    openFile, decode_station_list, mapOptM_from_value_map]

/-- C6 counterexample: when no cache record is present, the load does not
return a failed Result as the claim states; it panics (aborts the
process) inside the File::open match. -/
theorem read_cache_absent_panics :
    read_data_from_file_and_parse CacheFile.absent =
      ReadResult.panicked "could not open stations.json" := rfl

/-- C6 amended: the cache load panics both when the record is absent and
on I/O faults; it returns an error Result exactly when the content cannot
be parsed, and the parsed value exactly when it can. -/
theorem read_cache_behavior :
    ∀ f : CacheFile,
      ((∃ m, read_data_from_file_and_parse f = .panicked m) ↔
        (f = .absent ∨ f = .faulted)) ∧
      (read_data_from_file_and_parse f = .jsonErr ↔ f = .content none) ∧
      (∀ v, read_data_from_file_and_parse f = .ok v ↔ f = .content (some v)) := by
  intro f
  rcases f with _ | _ | (_ | v) <;>
    simp [read_data_from_file_and_parse, openFile]

/-- C7 counterexample: on an underlying I/O fault distinct from absence
(the record is present but File::open fails), is_cache_present returns
false even though a cache record is present, so "true iff present" does
not hold on the code. -/
theorem is_cache_present_faulted_counterexample :
    recordPresent CacheFile.faulted = true ∧
      is_cache_present CacheFile.faulted = false :=
  ⟨rfl, rfl⟩

/-- C7 amended: is_cache_present never raises; it returns true exactly
when opening the record succeeds, and false both for the absent record
and for I/O faults distinct from absence. -/
theorem is_cache_present_behavior :
    ∀ f : CacheFile,
      (is_cache_present f = true ↔ ∃ p, f = .content p) ∧
      (is_cache_present f = false ↔ (f = .absent ∨ f = .faulted)) := by
  intro f
  rcases f with _ | _ | p <;>
    simp [is_cache_present, openFile]

/-! ## Filtering and display formatting -/

/-- Rust str::len — the UTF-8 byte length of the string. -/
def rustLen (s : String) : Nat :=
  (s.data.map Char.utf8Size).sum

/-- Rust str::contains(&str) — substring containment, case-sensitive and
verbatim. -/
def rustContains (hay pat : String) : Bool :=
  decide (pat.data <:+: hay.data)

/-- filter_stations (src/main.rs lines 312-324): keep a station when the
query has positive length and its name or tags contain the query, or the
query is the empty string. -/
def filter_stations (stations : List ApiStation) (filter : String) : List ApiStation :=
  stations.filter fun v =>
    if 0 < rustLen filter then
      rustContains v.name filter || rustContains v.tags filter
    else
      true

/-- The matches predicate in the words of the specification: the query is
empty, or the name contains the query, or the tags contain the query. -/
def matches_spec (v : ApiStation) (query : String) : Bool :=
  (query == "") || rustContains v.name query || rustContains v.tags query

theorem rustLen_eq_zero (s : String) : rustLen s = 0 ↔ s = "" := by
  constructor
  · intro h
    obtain ⟨l⟩ := s
    cases l with
    | nil => rfl
    | cons c cs =>
      exfalso
      have hc : 0 < c.utf8Size := Char.utf8Size_pos c
      simp [rustLen] at h
      omega
  · intro h
    rw [h]
    rfl

/-- C1: filter_stations returns exactly the stations satisfying the
spec predicate (query empty, or name contains it, or tags contain it),
keeps the relative input order (the result is a sublist of the input),
and returns the input unchanged for the empty query. -/
theorem filter_stations_spec :
    ∀ (stations : List ApiStation) (query : String),
      filter_stations stations query = stations.filter (fun v => matches_spec v query) ∧
      filter_stations stations "" = stations ∧
      (filter_stations stations query).Sublist stations := by
  intro stations query
  refine ⟨?_, ?_, List.filter_sublist stations⟩
  · have hpt : ∀ v : ApiStation,
        (if 0 < rustLen query then
          rustContains v.name query || rustContains v.tags query
        else true) = matches_spec v query := by
      intro v
      by_cases hq : query = ""
      · cases hq
        rfl
      · have h0 : rustLen query ≠ 0 := fun h => hq ((rustLen_eq_zero query).mp h)
        have hpos : 0 < rustLen query := Nat.pos_of_ne_zero h0
        have hbeq : (query == "") = false := by
          simp [beq_iff_eq, hq]
        simp [matches_spec, hpos, hbeq]
    unfold filter_stations
    exact List.filter_congr fun v _ => hpt v
  · have : ∀ v : ApiStation, (if 0 < rustLen "" then
        rustContains v.name "" || rustContains v.tags "" else true) = true := by
      intro v
      rfl
    simp [filter_stations, this]

/-- Rust char::to_ascii_lowercase: shift only the ASCII uppercase
letters down by 32. -/
def asciiLowerChar (c : Char) : Char :=
  if c.isUpper then Char.ofNat (c.toNat + 32) else c

/-- Rust str::to_ascii_lowercase over the whole string. -/
def to_ascii_lowercase (s : String) : String :=
  ⟨s.data.map asciiLowerChar⟩

/-- The Unicode White_Space property used by Rust's char::is_whitespace. -/
def isRustWhitespace (c : Char) : Bool :=
  (0x09 ≤ c.toNat && c.toNat ≤ 0x0D) || c.toNat == 0x20 || c.toNat == 0x85 ||
  c.toNat == 0xA0 || c.toNat == 0x1680 ||
  (0x2000 ≤ c.toNat && c.toNat ≤ 0x200A) || c.toNat == 0x2028 ||
  c.toNat == 0x2029 || c.toNat == 0x202F || c.toNat == 0x205F ||
  c.toNat == 0x3000

/-- Rust str::trim_start: drop leading whitespace. -/
def rust_trim_start (s : String) : String :=
  ⟨s.data.dropWhile isRustWhitespace⟩

/-- Rust str::trim_end: drop trailing whitespace. -/
def rust_trim_end (s : String) : String :=
  ⟨(s.data.reverse.dropWhile isRustWhitespace).reverse⟩

/-- format_station (src/main.rs lines 326-340): pipe-delimited row of the
lower-cased, trimmed name (or resolved URL when the name is empty),
region/state, country and tags. -/
def format_station (station : ApiStation) : String :=
  rust_trim_start (rust_trim_end
      (if rustLen station.name == 0 then
        to_ascii_lowercase station.url_resolved
      else
        to_ascii_lowercase station.name)) ++
    "|" ++ station.state ++ "|" ++ station.country ++ "|" ++ station.tags

/-- The display row in the words of the specification: four pipe-delimited
fields, the first being the lower-cased and trimmed name, falling back to
the lower-cased and trimmed resolved URL exactly when the name is empty,
then region/state, country and tags. -/
def formatForDisplay (station : ApiStation) : String :=
  (if station.name == "" then
    rust_trim_start (rust_trim_end (to_ascii_lowercase station.url_resolved))
  else
    rust_trim_start (rust_trim_end (to_ascii_lowercase station.name))) ++
    "|" ++ station.state ++ "|" ++ station.country ++ "|" ++ station.tags

/-- C8: format_station produces exactly the specified pipe-delimited row,
with the URL fallback applying exactly when the name is empty; it is a
total function over any station value. -/
theorem format_station_matches_display_spec :
    ∀ station : ApiStation, format_station station = formatForDisplay station := by
  intro station
  have hlen : (rustLen station.name == 0) = (station.name == "") := by
    by_cases h : station.name = ""
    · rw [h]
      rfl
    · have h0 : rustLen station.name ≠ 0 := fun hz => h ((rustLen_eq_zero _).mp hz)
      simp [beq_iff_eq, h, h0]
  unfold format_station formatForDisplay
  rw [hlen]
  by_cases h : station.name = ""
  · simp [beq_iff_eq, h]
  · simp [beq_iff_eq, h]

/-! ## The event loop: fetching, caching and the station browser -/

/-- The Message enum of src/main.rs lines 26-33. -/
inductive Message where
  | FetchStations
  | StationsFetchedSuccess
  | FilterStations
  | PlayRequest
  | PauseRequest
deriving DecidableEq

/-- fetch_stations (src/main.rs lines 308-310) delegates to
RadioBrowserAPI::get_stations; it is modelled by the response the
directory service hands back (Ok station list or a network error). -/
def fetch_stations (serviceResponse : Except String (List ApiStation)) :
    Except String (List ApiStation) :=
  serviceResponse

/-- fill_station_browser (src/main.rs lines 273-284): when a station list
is present, first add the "Received 0 stations." notice if it is empty,
then clear the whole browser (erasing that notice too), then add one
formatted row per station; with no list, leave the browser alone. -/
def fill_station_browser (browser : List String)
    (stations : Option (List ApiStation)) : List String :=
  match stations with
  | some sts =>
    let withNotice :=
      if sts.length < 1 then browser ++ ["Received 0 stations."] else browser
    let cleared : List String := []
    let _ := withNotice
    cleared ++ sts.map format_station
  | none => browser

/-- spawn_fetch_thread (src/main.rs lines 259-271): block on the fetch,
replace a failed fetch by the empty vector (unwrap_or), send
StationsFetchedSuccess unconditionally, store the stations in the
container and refill the browser.  Returns the stored stations, the
messages sent and the new browser contents. -/
def spawn_fetch_thread (serviceResponse : Except String (List ApiStation))
    (browser : List String) :
    List ApiStation × List Message × List String :=
  let stations := (fetch_stations serviceResponse).toOption.getD []
  (stations, [Message.StationsFetchedSuccess],
    fill_station_browser browser (some stations))

/-- The mutable UI state the event loop touches: the all_stations
container, the browser rows, the status terminal text and the search
input value. -/
structure UiState where
  all_stations : Option (List ApiStation)
  browser : List String
  status : String
  search : String

/-- Side effects observable outside the UI during one handled message:
whether the directory service was called, whether the cache was read via
read_data_from_file_and_parse, what (if anything) was written to the
cache, and which messages were sent on the channel. -/
structure Effects where
  serviceCalled : Bool
  cacheRead : Bool
  cacheWritten : Option JVal
  sent : List Message

/-- The no-effect value. -/
def noEffects : Effects :=
  { serviceCalled := false, cacheRead := false, cacheWritten := none, sent := [] }

/-- The Message::FetchStations branch of the event loop (src/main.rs
lines 79-87): run spawn_fetch_thread (synchronously, via block_on), then
report the fetched count in the status terminal when the container is
filled. -/
def handleFetchStations (serviceResponse : Except String (List ApiStation))
    (st : UiState) : UiState × Effects :=
  let fetched := spawn_fetch_thread serviceResponse st.browser
  let st1 : UiState :=
    { st with all_stations := some fetched.1, browser := fetched.2.2 }
  let st2 : UiState :=
    if st1.all_stations.isSome then
      { st1 with status :=
          "Successfully fetched " ++ toString fetched.1.length ++ " stations" }
    else st1
  (st2, { noEffects with serviceCalled := true, sent := fetched.2.1 })

/-- The Message::FilterStations branch of the event loop (src/main.rs
lines 88-113): when nothing is loaded and no cache is present, fetch,
serialize the stations (station_to_json with .unwrap(), modelled by its
total getD form) and write them to the cache file; when nothing is loaded
but a cache is present, do nothing at all; then filter whatever is loaded
(unwrap_or(vec![])), report the count and refill the browser with the
filtered rows. -/
def handleFilterStations (serviceResponse : Except String (List ApiStation))
    (cache : CacheFile) (st : UiState) : UiState × CacheFile × Effects :=
  let loaded :=
    if st.all_stations.isNone then
      if is_cache_present cache = false then
        let fetched := spawn_fetch_thread serviceResponse st.browser
        let json_vec := fetched.1.map fun e => (station_to_json e).getD e
        let payload : JVal := .arr (json_vec.map serialize_station)
        let browser2 := fill_station_browser fetched.2.2 (some fetched.1)
        ({ st with all_stations := some fetched.1, browser := browser2 },
         write_data_to_file payload,
         { serviceCalled := true, cacheRead := false,
           cacheWritten := some payload, sent := fetched.2.1 })
      else (st, cache, noEffects)
    else (st, cache, noEffects)
  let st1 := loaded.1
  let filtered := filter_stations (st1.all_stations.getD []) st.search
  let st2 : UiState :=
    { st1 with status := "Found: " ++ toString filtered.length,
               browser := filtered.map format_station }
  (st2, loaded.2.1, loaded.2.2)

/-- A concrete station for the scenario theorems. -/
def sampleStation : ApiStation := {
  changeuuid := "c1", stationuuid := "s1", serveruuid := none,
  name := "Radio One", url := "http://a", url_resolved := "http://a",
  homepage := "", favicon := "", tags := "jazz", country := "US",
  countrycode := "US", iso_3166_2 := none, state := "TX", language := "en",
  languagecodes := none, votes := 0, lastchangetime_iso8601 := none,
  codec := "MP3", bitrate := 128, hls := 0, lastcheckok := 1,
  lastchecktime_iso8601 := none, lastcheckoktime_iso8601 := none,
  lastlocalchecktime_iso8601 := none, clicktimestamp_iso8601 := none,
  clickcount := 0, clicktrend := 0, ssl_error := 0, geo_lat := none,
  geo_long := none, has_extended_info := none }

/-- C3: with the catalog not yet in memory and the cache present (here
holding one serialized station), the FilterStations branch neither reads
the cache nor calls the directory service nor loads anything: the catalog
stays unloaded and the user is shown "Found: 0".  The claim instead
requires the catalog to be loaded from the cache in this situation; the
dead read_data_from_file_and_parse function was meant for that load. -/
theorem cache_present_skips_load :
    handleFilterStations (Except.ok [sampleStation])
        (CacheFile.content (some (.arr [serialize_station sampleStation])))
        { all_stations := none, browser := [], status := "", search := "" } =
      ({ all_stations := none, browser := [], status := "Found: 0", search := "" },
       CacheFile.content (some (.arr [serialize_station sampleStation])),
       noEffects) := rfl

/-- C9: a directory-service response of zero stations is handled as a
successful fetch of a valid empty catalog: StationsFetchedSuccess is the
only message sent, the in-memory catalog becomes the empty list, the
browser lists zero rows, and the status terminal shows the count zero
("Successfully fetched 0 stations") rather than a failure message. -/
theorem fetch_empty_response_is_valid :
    ∀ st : UiState,
      handleFetchStations (Except.ok []) st =
        ({ st with all_stations := some [], browser := [],
                   status := "Successfully fetched 0 stations" },
         { noEffects with serviceCalled := true,
                          sent := [Message.StationsFetchedSuccess] }) := by
  intro st
  unfold handleFetchStations spawn_fetch_thread fetch_stations fill_station_browser
  simp only [Except.toOption, Option.getD, Option.isSome, List.map, List.length,
    List.append_eq, List.nil_append, noEffects]
  rfl

/-- C10: spawn_fetch_thread sends StationsFetchedSuccess unconditionally
and replaces a failed fetch by the empty list, so a directory-service
failure is indistinguishable from a successful fetch of zero stations,
the stored catalog is Some after any fetch, and no distinct
fetch-failure signal is ever produced. -/
theorem fetch_failure_indistinguishable :
    (∀ (e : String) (b : List String),
      spawn_fetch_thread (Except.error e) b = spawn_fetch_thread (Except.ok []) b) ∧
    (∀ (r : Except String (List ApiStation)) (b : List String),
      (spawn_fetch_thread r b).2.1 = [Message.StationsFetchedSuccess]) ∧
    (∀ (r : Except String (List ApiStation)) (st : UiState),
      ((handleFetchStations r st).1.all_stations).isSome = true) := by
  refine ⟨fun e b => rfl, fun r b => rfl, fun r st => rfl⟩

/-! ## Playback: the vlc engine boundary -/

/-- Which of the four fallible vlc calls succeed in the environment:
Instance::new, Media::new_location, MediaPlayer::new and player.play(). -/
structure VlcEnv where
  instanceOk : Bool
  mediaOk : Bool
  playerOk : Bool
  playOk : Bool
deriving DecidableEq

/-- The observable steps of one Message::PlayRequest arm, in program
order.  engineAcquire is the creation of the vlc Instance (the engine
handle of the spec); engineRelease is its drop at the end of the arm.
releasePlayer is the drop of the MediaPlayer and Media when init_player
returns.  panicked aborts the process (an .expect failure). -/
inductive PlayStep where
  | statusSet (text : String)
  | engineAcquire
  | mediaCreate
  | playerCreate
  | setMediaStep
  | playbackStart
  | buttonLabel (l : String)
  | threadSpawn
  | releasePlayer
  | releaseEngine
  | panicked (msg : String)
deriving DecidableEq

/-- init_player (src/main.rs lines 197-219): set the media on the player,
start playback (panicking via .expect on failure), switch the button
label, spawn the sleeping receiver thread, and drop the player and media
on return. -/
def init_player (env : VlcEnv) : List PlayStep :=
  [.setMediaStep] ++
  (if env.playOk then
    [.playbackStart, .buttonLabel "||", .threadSpawn, .releasePlayer]
  else
    [.panicked "Error playing vlc media"])

/-- The Message::PlayRequest arm of the event loop (src/main.rs lines
115-142) for the selected station: set the status to "Playing: url",
create the vlc Instance unconditionally (no check of the resolved URL),
create the Media and MediaPlayer, run init_player, and drop the Instance
at the end of the arm; each .expect failure panics instead. -/
def handlePlayRequest (env : VlcEnv) (station : ApiStation) : List PlayStep :=
  [.statusSet ("Playing: " ++ station.url_resolved)] ++
  (if !env.instanceOk then
    [.panicked "Error initializing vlc instance"]
  else
    [.engineAcquire] ++
    (if !env.mediaOk then
      [.panicked "Error initializing vlc media"]
    else
      [.mediaCreate] ++
      (if !env.playerOk then
        [.panicked "Error initializing vlc media player"]
      else
        [.playerCreate] ++ init_player env ++
        (if env.playOk then [.releaseEngine] else []))))

/-- Whether a step trace contains a panic (the process aborts there). -/
def panicsIn (tr : List PlayStep) : Bool :=
  tr.any fun s =>
    match s with
    | .panicked _ => true
    | _ => false

/-- The application processing a sequence of play requests: each request
contributes its step trace; a panic aborts the process, so nothing
follows it. -/
def runApp : List (VlcEnv × ApiStation) → List PlayStep
  | [] => []
  | r :: rs =>
    let tr := handlePlayRequest r.1 r.2
    if panicsIn tr then tr else tr ++ runApp rs

/-- Contribution of one step to the number of live engine handles. -/
def engineDelta : PlayStep → Int
  | .engineAcquire => 1
  | .releaseEngine => -1
  | _ => 0

/-- Number of live engine handles after a trace. -/
def liveEngines (tr : List PlayStep) : Int :=
  (tr.map engineDelta).sum

/-- A station whose resolved stream URL is empty (the C4 failing input). -/
def emptyUrlStation : ApiStation := {
  changeuuid := "c2", stationuuid := "s2", serveruuid := none,
  name := "Radio Two", url := "", url_resolved := "",
  homepage := "", favicon := "", tags := "talk", country := "US",
  countrycode := "US", iso_3166_2 := none, state := "TX", language := "en",
  languagecodes := none, votes := 0, lastchangetime_iso8601 := none,
  codec := "MP3", bitrate := 64, hls := 0, lastcheckok := 0,
  lastchecktime_iso8601 := none, lastcheckoktime_iso8601 := none,
  lastlocalchecktime_iso8601 := none, clicktimestamp_iso8601 := none,
  clickcount := 0, clicktrend := 0, ssl_error := 0, geo_lat := none,
  geo_long := none, has_extended_info := none }

/-- C4: a play request for a station with an empty resolved URL is not
rejected: the status is set to "Playing: " and a vlc engine instance is
acquired before the URL is ever examined (the code never examines it),
both when all vlc calls succeed and when media creation fails - in the
latter case the process panics after the acquisition.  No
Unplayable-style rejection exists anywhere in the arm. -/
theorem play_request_empty_url_acquires_engine :
    PlayStep.engineAcquire ∈
      handlePlayRequest ⟨true, true, true, true⟩ emptyUrlStation ∧
    handlePlayRequest ⟨true, true, true, true⟩ emptyUrlStation =
      [.statusSet "Playing: ", .engineAcquire, .mediaCreate, .playerCreate,
       .setMediaStep, .playbackStart, .buttonLabel "||", .threadSpawn,
       .releasePlayer, .releaseEngine] ∧
    handlePlayRequest ⟨true, false, true, true⟩ emptyUrlStation =
      [.statusSet "Playing: ", .engineAcquire,
       .panicked "Error initializing vlc media"] := by
  refine ⟨?_, rfl, rfl⟩
  decide

/-- Running check that, starting from n live handles, after every step of
the delta list the live count stays between 0 and 1. -/
def deltasOk : Int → List Int → Bool
  | _, [] => true
  | n, d :: ds =>
    let m := n + d
    (0 ≤ m && m ≤ 1) && deltasOk m ds

theorem prefix_cons_elim {α : Type} {y x : α} {p l : List α}
    (h : y :: p <+: x :: l) : y = x ∧ p <+: l := by
  obtain ⟨t, ht⟩ := h
  injection ht with h1 h2
  exact ⟨h1, ⟨t, h2⟩⟩

theorem prefix_map {α β : Type} (f : α → β) {p l : List α} (h : p <+: l) :
    p.map f <+: l.map f := by
  obtain ⟨t, ht⟩ := h
  exact ⟨t.map f, by rw [← List.map_append, ht]⟩

theorem prefix_append_split {α : Type} :
    ∀ (a : List α) {b p : List α}, p <+: a ++ b →
      p <+: a ∨ ∃ q, p = a ++ q ∧ q <+: b := by
  intro a
  induction a with
  | nil =>
    intro b p h
    exact Or.inr ⟨p, rfl, h⟩
  | cons x xs ih =>
    intro b p h
    cases p with
    | nil => exact Or.inl ⟨x :: xs, rfl⟩
    | cons y p =>
      obtain ⟨h1, h2⟩ := prefix_cons_elim h
      cases h1
      rcases ih h2 with h3 | ⟨q, hq1, hq2⟩
      · left
        obtain ⟨t, ht⟩ := h3
        exact ⟨t, by rw [List.cons_append, ht]⟩
      · right
        exact ⟨q, by rw [hq1, List.cons_append], hq2⟩

theorem deltasOk_sound :
    ∀ (ds : List Int) (n : Int), deltasOk n ds = true →
      ∀ p, p <+: ds → p = [] ∨ (0 ≤ n + p.sum ∧ n + p.sum ≤ 1) := by
  intro ds
  induction ds with
  | nil =>
    intro n _ p hp
    obtain ⟨t, ht⟩ := hp
    cases p with
    | nil => exact Or.inl rfl
    | cons y p => cases ht
  | cons d ds ih =>
    intro n h p hp
    simp only [deltasOk, Bool.and_eq_true, decide_eq_true_eq] at h
    obtain ⟨⟨hlo, hhi⟩, hrest⟩ := h
    cases p with
    | nil => exact Or.inl rfl
    | cons y p =>
      obtain ⟨h1, h2⟩ := prefix_cons_elim hp
      cases h1
      rcases ih (n + d) hrest p h2 with h3 | ⟨h4, h5⟩
      · cases h3
        right
        constructor
        · simpa using hlo
        · simpa using hhi
      · right
        constructor
        · have : n + (d + p.sum) = n + d + p.sum := by ring
          simp only [List.sum_cons, this]
          exact h4
        · have : n + (d + p.sum) = n + d + p.sum := by ring
          simp only [List.sum_cons, this]
          exact h5

theorem liveEngines_bounds_of_deltasOk {tr : List PlayStep}
    (h : deltasOk 0 (tr.map engineDelta) = true) :
    ∀ p, p <+: tr → 0 ≤ liveEngines p ∧ liveEngines p ≤ 1 := by
  intro p hp
  have hmap : p.map engineDelta <+: tr.map engineDelta := prefix_map engineDelta hp
  rcases deltasOk_sound (tr.map engineDelta) 0 h (p.map engineDelta) hmap with
    h0 | ⟨hlo, hhi⟩
  · have : liveEngines p = 0 := by
      simp [liveEngines, h0]
    constructor <;> simp [this]
  · constructor
    · have := hlo
      simpa [liveEngines] using this
    · have := hhi
      simpa [liveEngines] using this

theorem handlePlayRequest_deltasOk (env : VlcEnv) (station : ApiStation) :
    deltasOk 0 ((handlePlayRequest env station).map engineDelta) = true := by
  obtain ⟨i, m, p, pl⟩ := env
  cases i <;> cases m <;> cases p <;> cases pl <;>
    simp [handlePlayRequest, init_player, engineDelta, deltasOk]

theorem handlePlayRequest_prefix_bounds (env : VlcEnv) (station : ApiStation) :
    ∀ p, p <+: handlePlayRequest env station →
      0 ≤ liveEngines p ∧ liveEngines p ≤ 1 :=
  liveEngines_bounds_of_deltasOk (handlePlayRequest_deltasOk env station)

theorem handlePlayRequest_closed (env : VlcEnv) (station : ApiStation)
    (h : panicsIn (handlePlayRequest env station) = false) :
    liveEngines (handlePlayRequest env station) = 0 := by
  obtain ⟨i, m, p, pl⟩ := env
  cases i <;> cases m <;> cases p <;> cases pl <;>
    simp_all [handlePlayRequest, init_player, engineDelta, liveEngines, panicsIn]

theorem liveEngines_append (a b : List PlayStep) :
    liveEngines (a ++ b) = liveEngines a + liveEngines b := by
  simp [liveEngines]

/-- C5: processing any sequence of play requests, at every point of the
resulting step trace at most one engine handle (vlc Instance) is live:
each Message::PlayRequest arm acquires its Instance and drops it before
the arm ends, so the handle of an earlier play is released before the
handle of a later play is acquired, and the live count never exceeds
one (and never goes negative). -/
theorem single_engine_handle_invariant :
    ∀ (reqs : List (VlcEnv × ApiStation)) (p : List PlayStep),
      p <+: runApp reqs → 0 ≤ liveEngines p ∧ liveEngines p ≤ 1 := by
  intro reqs
  induction reqs with
  | nil =>
    intro p hp
    obtain ⟨t, ht⟩ := hp
    cases p with
    | nil => constructor <;> simp [liveEngines]
    | cons y p => cases ht
  | cons r rs ih =>
    intro p hp
    simp only [runApp] at hp
    by_cases hpanic : panicsIn (handlePlayRequest r.1 r.2) = true
    · rw [if_pos hpanic] at hp
      exact handlePlayRequest_prefix_bounds r.1 r.2 p hp
    · rw [if_neg hpanic] at hp
      rcases prefix_append_split (handlePlayRequest r.1 r.2) hp with
        h | ⟨q, hq1, hq2⟩
      · exact handlePlayRequest_prefix_bounds r.1 r.2 p h
      · have hclosed : liveEngines (handlePlayRequest r.1 r.2) = 0 :=
          handlePlayRequest_closed r.1 r.2 (by
            cases hpi : panicsIn (handlePlayRequest r.1 r.2)
            · rfl
            · exact absurd hpi hpanic)
        have := ih q hq2
        rw [hq1, liveEngines_append, hclosed]
        simpa using this

/-- Witness for C5: two consecutive play requests on the sample station;
a concrete prefix of the run ending right after the second acquisition
satisfies the bound. -/
theorem single_engine_handle_invariant_witness :
    ([PlayStep.statusSet "Playing: http://a", .engineAcquire, .mediaCreate,
      .playerCreate, .setMediaStep, .playbackStart, .buttonLabel "||",
      .threadSpawn, .releasePlayer, .releaseEngine,
      .statusSet "Playing: http://a", .engineAcquire] <+:
        runApp [(⟨true, true, true, true⟩, sampleStation),
                (⟨true, true, true, true⟩, sampleStation)]) ∧
    (0 ≤ liveEngines
        [PlayStep.statusSet "Playing: http://a", .engineAcquire, .mediaCreate,
         .playerCreate, .setMediaStep, .playbackStart, .buttonLabel "||",
         .threadSpawn, .releasePlayer, .releaseEngine,
         .statusSet "Playing: http://a", .engineAcquire] ∧
      liveEngines
        [PlayStep.statusSet "Playing: http://a", .engineAcquire, .mediaCreate,
         .playerCreate, .setMediaStep, .playbackStart, .buttonLabel "||",
         .threadSpawn, .releasePlayer, .releaseEngine,
         .statusSet "Playing: http://a", .engineAcquire] ≤ 1) :=
  ⟨by decide,
   single_engine_handle_invariant
     [(⟨true, true, true, true⟩, sampleStation),
      (⟨true, true, true, true⟩, sampleStation)]
     [PlayStep.statusSet "Playing: http://a", .engineAcquire, .mediaCreate,
      .playerCreate, .setMediaStep, .playbackStart, .buttonLabel "||",
      .threadSpawn, .releasePlayer, .releaseEngine,
      .statusSet "Playing: http://a", .engineAcquire]
     (by decide)⟩
